import Mathlib

set_option maxRecDepth 100000

/-!
Shallow embedding of the MedAtlasAIServer embedding service
(`src/embedding-service/main.py`) and proofs about it.

The service's only self-authored logic is `universal_embedding`, which

  1. hashes the input text with SHA-256 (`hashlib.sha256(text.encode())`),
  2. takes `int(hexdigest[:8], 16)` as a 32-bit seed,
  3. seeds NumPy's process-wide global generator (`np.random.seed(seed)`),
  4. draws `dimensions` standard-normal values (`np.random.randn(dimensions)`),
  5. normalizes to unit Euclidean norm when the norm is positive,

and the `/embed` handler, which falls back to `universal_embedding` when the
trained model is absent or raises.

SHA-256 and the byte-level seed derivation are embedded exactly, as
executable functions on `Nat`.  The Gaussian draw is a floating-point
stream whose concrete values have no faithful integer embedding, so it is
modelled abstractly: a parameter `gauss : Nat → Nat → Nat → List ℝ`
mapping (seed, number of values already consumed since seeding, count) to
the drawn values, which captures exactly the determinism of NumPy's
seeded Mersenne-Twister stream.  Vector arithmetic is modelled over `ℝ`,
the standard real-valued reading of the float computation.
-/

/-! ## SHA-256 (FIPS 180-4), executable over byte lists -/

/-- Truncation to a 32-bit word. -/
def w32 (x : Nat) : Nat := x % 4294967296

/-- Right rotation of a 32-bit word. -/
def rotr32 (n x : Nat) : Nat := w32 ((x >>> n) ||| (x <<< (32 - n)))

/-- SHA-256 choice function. -/
def ch256 (x y z : Nat) : Nat := (x &&& y) ^^^ ((x ^^^ 4294967295) &&& z)

/-- SHA-256 majority function. -/
def maj256 (x y z : Nat) : Nat := (x &&& y) ^^^ (x &&& z) ^^^ (y &&& z)

/-- SHA-256 big sigma 0. -/
def bsig0 (x : Nat) : Nat := rotr32 2 x ^^^ rotr32 13 x ^^^ rotr32 22 x

/-- SHA-256 big sigma 1. -/
def bsig1 (x : Nat) : Nat := rotr32 6 x ^^^ rotr32 11 x ^^^ rotr32 25 x

/-- SHA-256 small sigma 0. -/
def ssig0 (x : Nat) : Nat := rotr32 7 x ^^^ rotr32 18 x ^^^ (x >>> 3)

/-- SHA-256 small sigma 1. -/
def ssig1 (x : Nat) : Nat := rotr32 17 x ^^^ rotr32 19 x ^^^ (x >>> 10)

/-- The 64 SHA-256 round constants. -/
def K256 : List Nat := [
  1116352408, 1899447441, 3049323471, 3921009573, 961987163, 1508970993, 2453635748, 2870763221,
  3624381080, 310598401, 607225278, 1426881987, 1925078388, 2162078206, 2614888103, 3248222580,
  3835390401, 4022224774, 264347078, 604807628, 770255983, 1249150122, 1555081692, 1996064986,
  2554220882, 2821834349, 2952996808, 3210313671, 3336571891, 3584528711, 113926993, 338241895,
  666307205, 773529912, 1294757372, 1396182291, 1695183700, 1986661051, 2177026350, 2456956037,
  2730485921, 2820302411, 3259730800, 3345764771, 3516065817, 3600352804, 4094571909, 275423344,
  430227734, 506948616, 659060556, 883997877, 958139571, 1322822218, 1537002063, 1747873779,
  1955562222, 2024104815, 2227730452, 2361852424, 2428436474, 2756734187, 3204031479, 3329325298]

/-- An 8-tuple of 32-bit words: the SHA-256 hash state. -/
structure Hash8 where
  a : Nat
  b : Nat
  c : Nat
  d : Nat
  e : Nat
  f : Nat
  g : Nat
  h : Nat
deriving DecidableEq

/-- The SHA-256 initial hash value. -/
def sha256init : Hash8 :=
  ⟨1779033703, 3144134277, 1013904242, 2773480762, 1359893119, 2600822924, 528734635, 1541459225⟩

/-- One step of the message-schedule extension. -/
def scheduleStep (acc : List Nat) : List Nat :=
  let n := acc.length
  acc ++ [w32 (ssig1 (acc.getD (n - 2) 0) + acc.getD (n - 7) 0 +
               ssig0 (acc.getD (n - 15) 0) + acc.getD (n - 16) 0)]

/-- Extend a 16-word block to the 64-word message schedule. -/
def schedule (block : List Nat) : List Nat :=
  (List.range 48).foldl (fun acc _ => scheduleStep acc) block

/-- One SHA-256 compression round, consuming one (round constant, schedule word) pair. -/
def sha256round (st : Hash8) (kw : Nat × Nat) : Hash8 :=
  let t1 := w32 (st.h + bsig1 st.e + ch256 st.e st.f st.g + kw.1 + kw.2)
  let t2 := w32 (bsig0 st.a + maj256 st.a st.b st.c)
  ⟨w32 (t1 + t2), st.a, st.b, st.c, w32 (st.d + t1), st.e, st.f, st.g⟩

/-- Compress one 16-word block into the running hash state. -/
def processBlock (hs : Hash8) (block : List Nat) : Hash8 :=
  let st := (K256.zip (schedule block)).foldl sha256round hs
  ⟨w32 (hs.a + st.a), w32 (hs.b + st.b), w32 (hs.c + st.c), w32 (hs.d + st.d),
   w32 (hs.e + st.e), w32 (hs.f + st.f), w32 (hs.g + st.g), w32 (hs.h + st.h)⟩

/-- SHA-256 padding: append `0x80`, zeros to 56 mod 64, and the 64-bit big-endian bit length. -/
def padBytes (msg : List Nat) : List Nat :=
  let L := msg.length
  msg ++ 128 :: List.replicate ((119 - L % 64) % 64) 0
      ++ (List.range 8).map (fun i => ((L * 8) >>> (8 * (7 - i))) % 256)

/-- Group bytes into big-endian 32-bit words. -/
def bytesToWords (bs : List Nat) : List Nat :=
  (List.range (bs.length / 4)).map (fun i =>
    bs.getD (4 * i) 0 * 16777216 + bs.getD (4 * i + 1) 0 * 65536 +
    bs.getD (4 * i + 2) 0 * 256 + bs.getD (4 * i + 3) 0)

/-- Group words into 16-word blocks. -/
def wordBlocks (ws : List Nat) : List (List Nat) :=
  (List.range (ws.length / 16)).map (fun i => (ws.drop (16 * i)).take 16)

/-- SHA-256 of a byte list, as the final hash state. -/
def sha256 (msg : List Nat) : Hash8 :=
  (wordBlocks (bytesToWords (padBytes msg))).foldl processBlock sha256init

/-- SHA-256 of a byte list, as the list of eight 32-bit output words. -/
def sha256words (msg : List Nat) : List Nat :=
  [(sha256 msg).a, (sha256 msg).b, (sha256 msg).c, (sha256 msg).d,
   (sha256 msg).e, (sha256 msg).f, (sha256 msg).g, (sha256 msg).h]

/-! ## Hex digests and hex parsing (`.hexdigest()` and `int(_, 16)`) -/

/-- The lowercase hex digit for a value below 16. -/
def hexChar (n : Nat) : Char := if n < 10 then Char.ofNat (48 + n) else Char.ofNat (87 + n)

/-- The eight hex characters of a 32-bit word, most significant first. -/
def toHex8Chars (x : Nat) : List Char :=
  (List.range 8).map (fun i => hexChar ((x >>> (4 * (7 - i))) % 16))

/-- The 64 hex characters of a SHA-256 digest. -/
def hexdigestChars (msg : List Nat) : List Char :=
  ((sha256words msg).map toHex8Chars).flatten

/-- Lowercase hex digest string, as `hashlib` produces it. -/
def hexdigest (msg : List Nat) : String := ⟨hexdigestChars msg⟩

/-- Numeric value of a lowercase hex digit character. -/
def hexVal (c : Char) : Nat := if 97 ≤ c.toNat then c.toNat - 87 else c.toNat - 48

/-- Python `int(s, 16)` on a list of hex digit characters. -/
def parseHex (cs : List Char) : Nat := cs.foldl (fun acc c => 16 * acc + hexVal c) 0

/-! ## UTF-8 encoding (Python `str.encode()`) -/

/-- UTF-8 bytes of a single code point. -/
def utf8Char (c : Char) : List Nat :=
  let n := c.toNat
  if n < 128 then [n]
  else if n < 2048 then [192 + n / 64, 128 + n % 64]
  else if n < 65536 then [224 + n / 4096, 128 + n / 64 % 64, 128 + n % 64]
  else [240 + n / 262144, 128 + n / 4096 % 64, 128 + n / 64 % 64, 128 + n % 64]

/-- UTF-8 encoding of a string, as a byte list. -/
def utf8Bytes (s : String) : List Nat := (s.data.map utf8Char).flatten

/-! ## The seed derivation of `universal_embedding` -/

/-- Line 30 of main.py: `text_hash = hashlib.sha256(text.encode()).hexdigest()`. -/
def text_hash (t : String) : String := hexdigest (utf8Bytes t)

/-- Line 31 of main.py: `seed = int(text_hash[:8], 16)`. -/
def seedOf (t : String) : Nat := parseHex ((text_hash t).data.take 8)

/-- FIPS 180-4 test vector: SHA-256 of the empty message. -/
theorem sha256_test_vector_empty :
    text_hash "" = "e3b0c44298fc1c149afbf4c8996fb92427ae41e4649b934ca495991b7852b855" := by
  decide

/-- FIPS 180-4 test vector: SHA-256 of "abc". -/
theorem sha256_test_vector_abc :
    text_hash "abc" = "ba7816bf8f01cfea414140de5dae2223b00361a396177a9cb410ff61f20015ad" := by
  decide

/-- Regression value for the derived seed of the text "a". -/
theorem seedOf_regression_a : seedOf "a" = 3398926610 := by decide

/-! ## The NumPy global generator, modelled -/

/-- State of NumPy's process-wide global legacy generator: the seed it was
last seeded with, paired with how many values have been drawn since. -/
abbrev GState := Nat × Nat

/-- A Gaussian stream: `gauss s k n` is the list of the next `n`
standard-normal values produced by the generator seeded with `s` after `k`
values have already been consumed.  NumPy's seeded Mersenne-Twister draw is
one such function; its concrete floating-point values are left abstract. -/
abbrev GaussStream := Nat → Nat → Nat → List ℝ

/-- Model of `np.random.seed(seed)` (main.py line 33): overwrites the shared
global state, discarding whatever state `_g` was there before. -/
def npSeed (_g : GState) (s : Nat) : GState := (s, 0)

/-- Model of `np.random.randn(d)` (main.py line 34): draws `d` values from
the shared global state and advances it. -/
def npRandn (gauss : GaussStream) (g : GState) (d : Nat) : List ℝ × GState :=
  (gauss g.1 g.2 d, (g.1, g.2 + d))

/-- Sum of squares of a real vector. -/
def sumSq (v : List ℝ) : ℝ := (v.map (fun x => x * x)).sum

/-- Model of `np.linalg.norm(embedding)` (main.py line 37): the Euclidean norm. -/
noncomputable def normL (v : List ℝ) : ℝ := Real.sqrt (sumSq v)

/-- Lines 37-39: `if norm > 0: embedding = embedding / norm`. -/
noncomputable def normalizeStep (v : List ℝ) : List ℝ :=
  if normL v > 0 then v.map (fun x => x / normL v) else v

/-- Lines 27-41 of main.py: `universal_embedding(text, dimensions)`, run
against an explicit global generator state `g`: derive the seed from the
SHA-256 digest, reseed the shared global generator, draw `dims` values,
normalize when the norm is positive.  Returns the result list together with
the global state the call leaves behind. -/
noncomputable def universal_embedding_run (gauss : GaussStream) (text : String)
    (dims : Nat) (g : GState) : List ℝ × GState :=
  let g1 := npSeed g (seedOf text)
  let (e, g2) := npRandn gauss g1 dims
  (normalizeStep e, g2)

/-- Pure text-to-vector view of `universal_embedding`: the function the service
computes (the run result does not depend on the incoming state; see C1). -/
noncomputable def universal_embedding (gauss : GaussStream) (text : String)
    (dims : Nat) : List ℝ :=
  (universal_embedding_run gauss text dims (0, 0)).1

/-! ## The `/embed` handler -/

/-- The response model `EmbedResponse` (main.py lines 22-25). -/
structure EmbedResponse where
  vector : List ℝ
  model : String
  dims : Nat

/-- The `/embed` handler (main.py lines 55-80).  The trained model is an
optional encoder that may fail: `MODEL.encode(text)` is `enc text`, and an
exception it raises is `Except.error`.  The `try/except` appears as the case
split on that result: any model-path error yields the `"fallback-universal"`
response.  An `Except.error` result of the handler itself would be an
uncaught exception propagating to the HTTP layer; it never occurs.  The
handler calls `universal_embedding` with its default `dimensions=384` and
sets `dims` to `len(vector)` on every path. -/
noncomputable def embed_text (gauss : GaussStream)
    (MODEL : Option (String → Except String (List ℝ))) (text : String) :
    Except String EmbedResponse :=
  match MODEL with
  | some enc =>
    match enc text with
    | Except.ok v => Except.ok ⟨v, "all-MiniLM-L6-v2", v.length⟩
    | Except.error _ =>
      let v := universal_embedding gauss text 384
      Except.ok ⟨v, "fallback-universal", v.length⟩
  | none =>
    let v := universal_embedding gauss text 384
    Except.ok ⟨v, "universal-hash-embedding", v.length⟩

/-! ## Concrete Gaussian streams used to instantiate witnesses -/

/-- A degenerate stream drawing only zeros (exercises the norm-zero path). -/
def gaussZero : GaussStream := fun _ _ d => List.replicate d 0

/-- A stream drawing only ones (positive norm on every nonempty draw). -/
def gaussOne : GaussStream := fun _ _ d => List.replicate d 1

/-- A stream that distinguishes a freshly seeded draw for the seed of "a"
from every other draw, by unit vectors along different axes. -/
noncomputable def gaussSel : GaussStream := fun s k d =>
  if s = seedOf "a" ∧ k = 0 then 1 :: List.replicate (d - 1) 0
  else (0 : ℝ) :: 1 :: List.replicate (d - 2) 0

/-- The result of call A when two concurrent calls A and B interleave their
atomic steps on the shared global generator as: A seeds, B seeds, A draws
and normalizes.  A's draw reads the state B's `np.random.seed` wrote. -/
noncomputable def interleavedA (gauss : GaussStream) (tA tB : String)
    (d : Nat) (g0 : GState) : List ℝ :=
  let g1 := npSeed g0 (seedOf tA)
  let g2 := npSeed g1 (seedOf tB)
  normalizeStep (npRandn gauss g2 d).1

/-! ## Supporting lemmas -/

theorem w32_lt (x : Nat) : w32 x < 4294967296 := Nat.mod_lt _ (by norm_num)

theorem processBlock_a (hs : Hash8) (b : List Nat) :
    (processBlock hs b).a = w32 (hs.a + ((K256.zip (schedule b)).foldl sha256round hs).a) := by
  simp only [processBlock]

theorem sha256_a_lt (msg : List Nat) : (sha256 msg).a < 4294967296 := by
  rw [sha256]
  generalize wordBlocks (bytesToWords (padBytes msg)) = bs
  have key : ∀ (l : List (List Nat)) (hs : Hash8), hs.a < 4294967296 →
      (l.foldl processBlock hs).a < 4294967296 := by
    intro l
    induction l with
    | nil => intro hs h; exact h
    | cons b l ih =>
      intro hs _
      rw [List.foldl_cons]
      refine ih (processBlock hs b) ?_
      rw [processBlock_a]
      exact w32_lt _
  exact key bs sha256init (by norm_num [sha256init])

theorem hexVal_hexChar (n : Nat) (h : n < 16) : hexVal (hexChar n) = n := by
  interval_cases n <;> decide

theorem hexVal_hexChar_mod (m : Nat) : hexVal (hexChar (m % 16)) = m % 16 :=
  hexVal_hexChar _ (Nat.mod_lt _ (by norm_num))

theorem parseHex_toHex8Chars (x : Nat) (h : x < 4294967296) :
    parseHex (toHex8Chars x) = x := by
  rw [toHex8Chars, show List.range 8 = [0, 1, 2, 3, 4, 5, 6, 7] from rfl]
  simp only [List.map_cons, List.map_nil, parseHex, List.foldl_cons, List.foldl_nil]
  norm_num [hexVal_hexChar_mod, Nat.shiftRight_eq_div_pow]
  omega

theorem length_toHex8Chars (x : Nat) : (toHex8Chars x).length = 8 := by
  simp [toHex8Chars]

theorem text_hash_take (t : String) :
    (text_hash t).data.take 8 = toHex8Chars (sha256 (utf8Bytes t)).a := by
  show (hexdigestChars (utf8Bytes t)).take 8 = _
  rw [hexdigestChars, sha256words]
  simp only [List.map_cons, List.map_nil, List.flatten_cons]
  rw [List.take_left' (length_toHex8Chars ((sha256 (utf8Bytes t)).a))]

theorem sumSq_cons (x : ℝ) (xs : List ℝ) : sumSq (x :: xs) = x * x + sumSq xs := by
  simp [sumSq]

theorem sumSq_nonneg (v : List ℝ) : 0 ≤ sumSq v := by
  induction v with
  | nil => simp [sumSq]
  | cons x xs ih =>
    rw [sumSq_cons]
    have := mul_self_nonneg x
    linarith

theorem normL_nonneg (v : List ℝ) : 0 ≤ normL v := Real.sqrt_nonneg _

theorem sumSq_map_div (v : List ℝ) (c : ℝ) :
    sumSq (v.map (fun x => x / c)) = sumSq v / (c * c) := by
  induction v with
  | nil => simp [sumSq]
  | cons x xs ih =>
    rw [List.map_cons, sumSq_cons, sumSq_cons, ih, div_mul_div_comm, div_add_div_same]

theorem normL_normalize (v : List ℝ) (h : normL v ≠ 0) :
    normL (v.map (fun x => x / normL v)) = 1 := by
  rw [normL, sumSq_map_div]
  rw [show normL v * normL v = sumSq v from Real.mul_self_sqrt (sumSq_nonneg v)]
  rw [div_self (fun h0 => h (by rw [normL, h0, Real.sqrt_zero]))]
  exact Real.sqrt_one

theorem length_normalizeStep (v : List ℝ) : (normalizeStep v).length = v.length := by
  rw [normalizeStep]
  split
  · exact List.length_map _ _
  · rfl

/-! ## Claim theorems -/

/-- C1: Determinism of `universal_embedding` as a two-run equality: for a fixed
`(text, dimensions)` pair, two calls run against arbitrary (and arbitrarily
different) prior global-generator states — in particular two independent calls
in one process, or calls in different processes — return element-for-element
identical vectors, both equal to the pure value `universal_embedding`:
the call overwrites the generator state with a seed derived only from the
text, so the incoming state cannot influence the result. -/
theorem universal_embedding_deterministic (gauss : GaussStream) (text : String)
    (dims : Nat) (g g' : GState) :
    (universal_embedding_run gauss text dims g).1 =
      (universal_embedding_run gauss text dims g').1 ∧
    (universal_embedding_run gauss text dims g).1 =
      universal_embedding gauss text dims :=
  ⟨rfl, rfl⟩

/-- C2: Unit norm: for every text and dimension count, if the
pre-normalization vector drawn from the freshly seeded generator has nonzero
Euclidean norm, the vector returned by `universal_embedding` has Euclidean
norm exactly 1 (the real-valued reading of "1.0 within floating-point
tolerance"). -/
theorem universal_embedding_unit_norm (gauss : GaussStream) (text : String)
    (dims : Nat) (h : normL (gauss (seedOf text) 0 dims) ≠ 0) :
    normL (universal_embedding gauss text dims) = 1 := by
  have hpos : normL (gauss (seedOf text) 0 dims) > 0 :=
    lt_of_le_of_ne (normL_nonneg _) (Ne.symm h)
  show normL (normalizeStep (gauss (seedOf text) 0 dims)) = 1
  rw [normalizeStep, if_pos hpos]
  exact normL_normalize _ h

/-- Witness for C2 at the all-ones stream, empty text and dimension 1. -/
theorem universal_embedding_unit_norm_witness :
    normL (gaussOne (seedOf "") 0 1) ≠ 0 ∧
      normL (universal_embedding gaussOne "" 1) = 1 := by
  have h : normL (gaussOne (seedOf "") 0 1) ≠ 0 := by
    show normL [(1 : ℝ)] ≠ 0
    rw [normL, show sumSq [(1 : ℝ)] = 1 by rw [sumSq_cons]; simp [sumSq],
      Real.sqrt_one]
    exact one_ne_zero
  exact ⟨h, universal_embedding_unit_norm gaussOne "" 1 h⟩

/-- C4: For every text, the PRNG seed `int(sha256(text.encode()).hexdigest()[:8], 16)`
equals the first 32-bit output word of the SHA-256 digest of the UTF-8
encoding of the text, and is therefore an unsigned integer below `2 ^ 32`. -/
theorem seedOf_spec (t : String) :
    seedOf t = (sha256 (utf8Bytes t)).a ∧ seedOf t < 4294967296 := by
  have ha : (sha256 (utf8Bytes t)).a < 4294967296 := sha256_a_lt _
  have e : seedOf t = parseHex (toHex8Chars (sha256 (utf8Bytes t)).a) := by
    rw [seedOf, text_hash_take]
  rw [e, parseHex_toHex8Chars _ ha]
  exact ⟨rfl, ha⟩

/-- C5: For every text (the empty string included) and every dimension count
`d` — in particular the positive ones, with the service default 384 — the
list returned by `universal_embedding` has exactly `d` elements, a length
that does not depend on the text; the hypothesis is the length law of the
generator (`np.random.randn(d)` yields `d` values). -/
theorem universal_embedding_length (gauss : GaussStream)
    (hlen : ∀ s k n, (gauss s k n).length = n) (text : String) (dims : Nat) :
    (universal_embedding gauss text dims).length = dims := by
  show (normalizeStep (gauss (seedOf text) 0 dims)).length = dims
  rw [length_normalizeStep, hlen]

/-- Witness for C5 at the all-ones stream, empty text and the default 384. -/
theorem universal_embedding_length_witness :
    (∀ s k n, (gaussOne s k n).length = n) ∧
      (universal_embedding gaussOne "" 384).length = 384 := by
  have h : ∀ s k n, (gaussOne s k n).length = n := by
    intro s k n
    exact List.length_replicate n 1
  exact ⟨h, universal_embedding_length gaussOne h "" 384⟩

/-- C6: Totality of the guarded normalization: `universal_embedding` is a
total function (the embedding returns a value for every string and dimension
count by construction), and in the degenerate case where the drawn vector
has Euclidean norm exactly zero the division is skipped — the drawn vector
is returned unchanged rather than raising. -/
theorem universal_embedding_zero_norm (gauss : GaussStream) (text : String)
    (dims : Nat) (h : normL (gauss (seedOf text) 0 dims) = 0) :
    universal_embedding gauss text dims = gauss (seedOf text) 0 dims := by
  show normalizeStep (gauss (seedOf text) 0 dims) = gauss (seedOf text) 0 dims
  rw [normalizeStep, if_neg]
  simp [h]

/-- Witness for C6 at the all-zeros stream, empty text and dimension 2. -/
theorem universal_embedding_zero_norm_witness :
    normL (gaussZero (seedOf "") 0 2) = 0 ∧
      universal_embedding gaussZero "" 2 = gaussZero (seedOf "") 0 2 := by
  have h : normL (gaussZero (seedOf "") 0 2) = 0 := by
    show normL [(0 : ℝ), 0] = 0
    rw [normL, show sumSq [(0 : ℝ), 0] = 0 by rw [sumSq_cons, sumSq_cons]; simp [sumSq]]
    exact Real.sqrt_zero
  exact ⟨h, universal_embedding_zero_norm gaussZero "" 2 h⟩

theorem normL_unit_pair_left : normL [(1 : ℝ), 0] = 1 := by
  rw [normL, show sumSq [(1 : ℝ), 0] = 1 by rw [sumSq_cons, sumSq_cons]; simp [sumSq],
    Real.sqrt_one]

theorem normL_unit_pair_right : normL [(0 : ℝ), 1] = 1 := by
  rw [normL, show sumSq [(0 : ℝ), 1] = 1 by rw [sumSq_cons, sumSq_cons]; simp [sumSq],
    Real.sqrt_one]

theorem normalizeStep_unit_pair_left : normalizeStep [(1 : ℝ), 0] = [1, 0] := by
  rw [normalizeStep, if_pos (by rw [normL_unit_pair_left]; norm_num)]
  rw [normL_unit_pair_left]
  simp

theorem normalizeStep_unit_pair_right : normalizeStep [(0 : ℝ), 1] = [0, 1] := by
  rw [normalizeStep, if_pos (by rw [normL_unit_pair_right]; norm_num)]
  rw [normL_unit_pair_right]
  simp

theorem gaussSel_fresh_a : gaussSel (seedOf "a") 0 2 = [(1 : ℝ), 0] := by
  rw [show gaussSel (seedOf "a") 0 2 = if seedOf "a" = seedOf "a" ∧ (0 : Nat) = 0
        then (1 : ℝ) :: List.replicate (2 - 1) 0
        else (0 : ℝ) :: 1 :: List.replicate (2 - 2) 0 from rfl,
    if_pos ⟨rfl, rfl⟩]
  rfl

theorem gaussSel_fresh_b : gaussSel (seedOf "b") 0 2 = [(0 : ℝ), 1] := by
  rw [show gaussSel (seedOf "b") 0 2 = if seedOf "b" = seedOf "a" ∧ (0 : Nat) = 0
        then (1 : ℝ) :: List.replicate (2 - 1) 0
        else (0 : ℝ) :: 1 :: List.replicate (2 - 2) 0 from rfl,
    if_neg (by decide)]
  rfl

/-- C3 counterexample: the code seeds the shared process-wide NumPy
generator, not a local per-call instance.  Concretely: the texts "a" and
"b" derive different seeds; a call mutates the shared global state it was
given; and in the interleaving where call A ("a") and call B ("b") both
execute their `np.random.seed` step before A executes its draw, call A
returns a vector different from the single-threaded computation for its own
text (under a Gaussian stream separating the two seeds).  So per-call
isolation fails in the embedding exactly because the generator is shared. -/
theorem universal_embedding_shared_generator_counterexample :
    seedOf "a" ≠ seedOf "b" ∧
    (universal_embedding_run gaussSel "a" 2 (0, 0)).2 ≠ ((0, 0) : GState) ∧
    interleavedA gaussSel "a" "b" 2 (0, 0) ≠ universal_embedding gaussSel "a" 2 := by
  refine ⟨by decide, by decide, ?_⟩
  have hA : interleavedA gaussSel "a" "b" 2 (0, 0) = [(0 : ℝ), 1] := by
    show normalizeStep (gaussSel (seedOf "b") 0 2) = _
    rw [gaussSel_fresh_b, normalizeStep_unit_pair_right]
  have hS : universal_embedding gaussSel "a" 2 = [(1 : ℝ), 0] := by
    show normalizeStep (gaussSel (seedOf "a") 0 2) = _
    rw [gaussSel_fresh_a, normalizeStep_unit_pair_left]
  rw [hA, hS]
  simp

/-- C3 amended: each call reseeds the shared global generator from its own
text immediately before drawing, so whenever the seed-and-draw pair of steps
is not interleaved with another call (calls executed serially, from any
prior global state — as in the service, whose async handler runs the
function without suspension points), every call returns exactly the
single-threaded computation of `universal_embedding` for its own text. -/
theorem universal_embedding_serialized_calls (gauss : GaussStream)
    (t1 t2 : String) (d1 d2 : Nat) (g0 : GState) :
    (universal_embedding_run gauss t1 d1 g0).1 = universal_embedding gauss t1 d1 ∧
    (universal_embedding_run gauss t2 d2
        (universal_embedding_run gauss t1 d1 g0).2).1 =
      universal_embedding gauss t2 d2 :=
  ⟨rfl, rfl⟩

/-- C9: the output of `universal_embedding` depends on the text only through
the first 8 hex characters of its SHA-256 digest: two texts whose digests
share that prefix (even distinct texts) receive identical vectors, for every
dimension count. -/
theorem universal_embedding_seed_only (gauss : GaussStream) (t1 t2 : String)
    (dims : Nat)
    (h : (text_hash t1).data.take 8 = (text_hash t2).data.take 8) :
    universal_embedding gauss t1 dims = universal_embedding gauss t2 dims := by
  have hs : seedOf t1 = seedOf t2 := by rw [seedOf, seedOf, h]
  show normalizeStep (gauss (seedOf t1) 0 dims) =
    normalizeStep (gauss (seedOf t2) 0 dims)
  rw [hs]

/-- Witness for C9: "t26821" and "t49091" are distinct texts whose SHA-256
hex digests share the 8-character prefix "3b787b99", and their embeddings
coincide. -/
theorem universal_embedding_seed_only_witness :
    ("t26821" : String) ≠ "t49091" ∧
    (text_hash "t26821").data.take 8 = (text_hash "t49091").data.take 8 ∧
    universal_embedding gaussOne "t26821" 3 =
      universal_embedding gaussOne "t49091" 3 := by
  have h : (text_hash "t26821").data.take 8 = (text_hash "t49091").data.take 8 := by
    decide
  exact ⟨by decide, h, universal_embedding_seed_only gaussOne "t26821" "t49091" 3 h⟩

/-- C7: if the trained-model path raises on a request (`enc text` is an
error), the handler catches it and returns a success value — never an
error — whose vector is `universal_embedding` applied to the request text
(at the default 384 dimensions) and whose model field is the sentinel
"fallback-universal"; the failure does not propagate to the caller. -/
theorem embed_text_model_failure (gauss : GaussStream)
    (enc : String → Except String (List ℝ)) (err : String) (text : String)
    (h : enc text = Except.error err) :
    embed_text gauss (some enc) text =
      Except.ok ⟨universal_embedding gauss text 384, "fallback-universal",
        (universal_embedding gauss text 384).length⟩ := by
  simp [embed_text, h]

/-- Witness for C7 at an encoder that always raises. -/
theorem embed_text_model_failure_witness :
    (fun _ : String => (Except.error "boom" : Except String (List ℝ))) "x" =
      Except.error "boom" ∧
    embed_text gaussZero (some (fun _ => Except.error "boom")) "x" =
      Except.ok ⟨universal_embedding gaussZero "x" 384, "fallback-universal",
        (universal_embedding gaussZero "x" 384).length⟩ :=
  ⟨rfl, embed_text_model_failure gaussZero (fun _ => Except.error "boom") "boom" "x" rfl⟩

theorem embed_text_shape (gauss : GaussStream)
    (MODEL : Option (String → Except String (List ℝ))) (text : String) :
    ∃ v m, embed_text gauss MODEL text = Except.ok ⟨v, m, v.length⟩ := by
  cases MODEL with
  | none =>
    exact ⟨universal_embedding gauss text 384, "universal-hash-embedding", rfl⟩
  | some enc =>
    cases henc : enc text with
    | ok v => exact ⟨v, "all-MiniLM-L6-v2", by simp [embed_text, henc]⟩
    | error e =>
      exact ⟨universal_embedding gauss text 384, "fallback-universal",
        by simp [embed_text, henc]⟩

/-- C10: every response the handler produces — trained-model path,
absent-model path and exception-fallback path alike — has its `dims` field
equal to the length of its `vector` field, since the handler computes
`dims` as `len(vector)` on every path. -/
theorem embed_text_dims_eq_length (gauss : GaussStream)
    (MODEL : Option (String → Except String (List ℝ))) (text : String)
    (r : EmbedResponse) (h : embed_text gauss MODEL text = Except.ok r) :
    r.dims = r.vector.length := by
  obtain ⟨v, m, e⟩ := embed_text_shape gauss MODEL text
  rw [e] at h
  injection h with h2
  subst h2
  rfl

/-- Witness for C10 at a model returning a concrete two-element vector. -/
theorem embed_text_dims_eq_length_witness :
    (⟨[(1 : ℝ), 2], "all-MiniLM-L6-v2", 2⟩ : EmbedResponse).dims =
      (⟨[(1 : ℝ), 2], "all-MiniLM-L6-v2", 2⟩ : EmbedResponse).vector.length :=
  embed_text_dims_eq_length gaussZero (some (fun _ => Except.ok [(1 : ℝ), 2])) "x"
    ⟨[(1 : ℝ), 2], "all-MiniLM-L6-v2", 2⟩ rfl

/-- Sensitivity support (testable property 4): the seeds derived for a small
corpus of distinct strings are pairwise distinct — the integer-level part of
the sensitivity property; whether distinct seeds yield distinct vectors
depends on the concrete floating-point values of NumPy's Gaussian stream. -/
theorem corpus_seeds_pairwise_distinct :
    [seedOf "heart disease treatment options", seedOf "a", seedOf "b",
      seedOf ""].Pairwise (· ≠ ·) := by
  decide
